import Mathlib

/-!
Shallow embedding of src/state/src/path.rs (LV2 state path-handling features).

Modelling choices:
* A filesystem path or C string is a list of byte values (`List Nat`, each < 256
  in practice; the embedding never relies on an upper bound).
* `Path::is_absolute` on Unix holds exactly when the path starts with the
  separator byte 47; `is_relative` is its negation.
* `to_str` (UTF-8 re-interpretation of an OS path / C string) succeeds exactly
  when the bytes are valid UTF-8; `validUTF8` is the standard UTF-8 acceptance
  automaton (matching Rust's `str::from_utf8`: rejects overlong forms,
  surrogates and values above U+10FFFF).
* A host-returned C string pointer is a `HostPtr`: an address together with the
  bytes stored before the null terminator (what `CStr::from_ptr` reads).
  A `&str` or `&Path` borrowed from that buffer shares its address, so the
  pointer later handed to `free_path` is the `addr` field.
* The behaviour of host function pointers is a `Host`: a map from
  (function-pointer value, handle, null-terminated argument bytes) to an
  optional `HostPtr` (`none` models a null return).
* Every fallible operation returns its result paired with the list of host
  calls it performed, in order, so that "no host call is made" and "exactly
  these bytes were forwarded" are statable.
* Rust's `b as c_char` cast reinterprets the byte; it is the identity on the
  byte level, so argument buffers are kept as the original bytes.
* `Rc`/`Mutex` sharing of `FreePathImpl` is modelled by plain value copies:
  cloning a `FreePath` copies the same handle and function pointer.
-/

namespace Lv2State

/-- An error that may occur when handling paths (enum PathError). -/
inductive PathError where
  | PathNotRelative
  | PathNotAbsolute
  | PathNotUTF8
  | HostError
  | FeatureMissing
deriving DecidableEq, Repr

/-- True iff the byte is a UTF-8 continuation byte (0x80..=0xBF). -/
def isCont (b : Nat) : Bool := 0x80 ≤ b && b ≤ 0xBF

/-- UTF-8 validity of a byte sequence, as Rust's str::from_utf8 decides it. -/
def validUTF8 : List Nat → Bool
  | [] => true
  | b :: rest =>
    if b ≤ 0x7F then validUTF8 rest
    else if 0xC2 ≤ b && b ≤ 0xDF then
      match rest with
      | b1 :: rest1 => isCont b1 && validUTF8 rest1
      | [] => false
    else if b = 0xE0 then
      match rest with
      | b1 :: b2 :: rest2 =>
        (0xA0 ≤ b1 && b1 ≤ 0xBF) && isCont b2 && validUTF8 rest2
      | _ => false
    else if 0xE1 ≤ b && b ≤ 0xEC then
      match rest with
      | b1 :: b2 :: rest2 => isCont b1 && isCont b2 && validUTF8 rest2
      | _ => false
    else if b = 0xED then
      match rest with
      | b1 :: b2 :: rest2 =>
        (0x80 ≤ b1 && b1 ≤ 0x9F) && isCont b2 && validUTF8 rest2
      | _ => false
    else if 0xEE ≤ b && b ≤ 0xEF then
      match rest with
      | b1 :: b2 :: rest2 => isCont b1 && isCont b2 && validUTF8 rest2
      | _ => false
    else if b = 0xF0 then
      match rest with
      | b1 :: b2 :: b3 :: rest3 =>
        (0x90 ≤ b1 && b1 ≤ 0xBF) && isCont b2 && isCont b3 && validUTF8 rest3
      | _ => false
    else if 0xF1 ≤ b && b ≤ 0xF3 then
      match rest with
      | b1 :: b2 :: b3 :: rest3 =>
        isCont b1 && isCont b2 && isCont b3 && validUTF8 rest3
      | _ => false
    else if b = 0xF4 then
      match rest with
      | b1 :: b2 :: b3 :: rest3 =>
        (0x80 ≤ b1 && b1 ≤ 0x8F) && isCont b2 && isCont b3 && validUTF8 rest3
      | _ => false
    else false

/-- Path::to_str / str::from_utf8: the same bytes, provided they are valid
UTF-8 (Rust returns a borrowed &str over the identical buffer). -/
def to_str (bytes : List Nat) : Option (List Nat) :=
  if validUTF8 bytes then some bytes else none

/-- Path::is_absolute on Unix: the path has a root, i.e. starts with b'/'. -/
def is_absolute (p : List Nat) : Bool :=
  match p with
  | 47 :: _ => true
  | _ => false

/-- Path::is_relative: negation of is_absolute. -/
def is_relative (p : List Nat) : Bool := !is_absolute p

/-- A non-null pointer returned by the host: its address and the bytes stored
before the null terminator (what CStr::from_ptr reads from it). -/
structure HostPtr where
  addr : Nat
  content : List Nat
deriving DecidableEq, Repr

/-- The behaviour of the host's string-returning function pointers: given the
function-pointer value, the opaque handle and the null-terminated argument
buffer, return `some` pointer or `none` (a null return). -/
structure Host where
  call : Nat → Nat → List Nat → Option HostPtr

/-- One raw call across the host boundary. -/
inductive HostCall where
  /-- A call through a string-returning function pointer (make_path,
  abstract_path or absolute_path), with the argument bytes passed. -/
  | invoke (fnptr : Nat) (handle : Nat) (arg : List Nat)
  /-- A call through the free_path function pointer with a pointer argument. -/
  | free (fnptr : Nat) (handle : Nat) (ptr : Nat)
deriving DecidableEq, Repr

/-- C struct LV2_State_Make_Path: a handle and a nullable function pointer. -/
structure LV2_State_Make_Path where
  handle : Nat
  path : Option Nat

/-- struct MakePath: handle plus the validated non-null function pointer. -/
structure MakePath where
  handle : Nat
  function : Nat
deriving DecidableEq, Repr

/-- MakePath::from_feature_ptr: a null feature pointer (`none`) or a null
`path` function pointer yields `None`; otherwise the capability is built. -/
def MakePath.from_feature_ptr (feature : Option LV2_State_Make_Path) :
    Option MakePath :=
  feature.bind fun internal =>
    internal.path.map fun f => { handle := internal.handle, function := f }

/-- MakePath::relative_to_absolute_path, returning the result together with
the trace of host calls performed. -/
def MakePath.relative_to_absolute_path (self : MakePath) (host : Host)
    (relative_path : List Nat) : Except PathError HostPtr × List HostCall :=
  if !is_relative relative_path then
    (.error .PathNotRelative, [])
  else
    match to_str relative_path with
    | none => (.error .PathNotUTF8, [])
    | some s =>
      let buf := s ++ [0]
      match host.call self.function self.handle buf with
      | none => (.error .HostError, [.invoke self.function self.handle buf])
      | some absolute_path =>
        match to_str absolute_path.content with
        | none => (.error .HostError, [.invoke self.function self.handle buf])
        | some _ => (.ok absolute_path, [.invoke self.function self.handle buf])

/-- C struct LV2_State_Map_Path: a handle and two nullable function pointers. -/
structure LV2_State_Map_Path where
  handle : Nat
  abstract_path : Option Nat
  absolute_path : Option Nat

/-- struct MapPath: handle plus the two validated non-null function pointers. -/
structure MapPath where
  handle : Nat
  abstract_path : Nat
  absolute_path : Nat
deriving DecidableEq, Repr

/-- MapPath::from_feature_ptr: a null feature pointer, a null abstract_path or
a null absolute_path function pointer yields `None`; otherwise the capability
is built from the two unwrapped pointers. -/
def MapPath.from_feature_ptr (feature : Option LV2_State_Map_Path) :
    Option MapPath :=
  feature.bind fun internal =>
    internal.abstract_path.bind fun fab =>
      internal.absolute_path.map fun fabs =>
        { handle := internal.handle, abstract_path := fab,
          absolute_path := fabs }

/-- MapPath::absolute_to_abstract_path, with its trace of host calls. -/
def MapPath.absolute_to_abstract_path (self : MapPath) (host : Host)
    (path : List Nat) : Except PathError HostPtr × List HostCall :=
  if !is_absolute path then
    (.error .PathNotAbsolute, [])
  else
    match to_str path with
    | none => (.error .PathNotUTF8, [])
    | some s =>
      let buf := s ++ [0]
      match host.call self.abstract_path self.handle buf with
      | none => (.error .HostError, [.invoke self.abstract_path self.handle buf])
      | some p =>
        match to_str p.content with
        | none => (.error .HostError, [.invoke self.abstract_path self.handle buf])
        | some _ => (.ok p, [.invoke self.abstract_path self.handle buf])

/-- MapPath::abstract_to_absolute_path, with its trace of host calls. The Rust
input is a &str (its bytes are passed through with no validation at all). -/
def MapPath.abstract_to_absolute_path (self : MapPath) (host : Host)
    (path : List Nat) : Except PathError HostPtr × List HostCall :=
  let buf := path ++ [0]
  match host.call self.absolute_path self.handle buf with
  | none => (.error .HostError, [.invoke self.absolute_path self.handle buf])
  | some p =>
    match to_str p.content with
    | none => (.error .HostError, [.invoke self.absolute_path self.handle buf])
    | some _ => (.ok p, [.invoke self.absolute_path self.handle buf])

/-- C struct LV2_State_Free_Path: a handle and a nullable function pointer. -/
structure LV2_State_Free_Path where
  handle : Nat
  free_path : Option Nat

/-- struct FreePathImpl: handle plus the validated non-null free_path
function pointer. -/
structure FreePathImpl where
  handle : Nat
  free_path : Nat
deriving DecidableEq, Repr

/-- struct FreePath: Rc<Mutex<FreePathImpl>>. Cloning shares the same
implementation value, which plain value copying models. -/
structure FreePath where
  internal : FreePathImpl
deriving DecidableEq, Repr

/-- FreePath::from_feature_ptr: a null feature pointer or a null free_path
function pointer yields `None`. -/
def FreePath.from_feature_ptr (feature : Option LV2_State_Free_Path) :
    Option FreePath :=
  feature.bind fun internal =>
    internal.free_path.map fun f =>
      { internal := { handle := internal.handle, free_path := f } }

/-- FreePath::free_path: the single host call it performs, passing the address
of the borrowed string buffer. -/
def FreePath.free_path (self : FreePath) (pathAddr : Nat) : List HostCall :=
  [.free self.internal.free_path self.internal.handle pathAddr]

/-- struct ManagedPath: a &Path borrowed from a host-returned buffer, plus the
shared FreePath capability. -/
structure ManagedPath where
  path : HostPtr
  free_path : FreePath
deriving DecidableEq, Repr

/-- Drop for ManagedPath: re-checks UTF-8 via path.to_str().unwrap() (`none`
models the unwrap panicking) and then performs the free_path host call with
the address of the buffer the &Path borrows, i.e. the host pointer. -/
def ManagedPath.drop (self : ManagedPath) : Option (List HostCall) :=
  (to_str self.path.content).map fun _ => self.free_path.free_path self.path.addr

/-- struct ManagedStr: a &str borrowed from a host-returned buffer, plus the
shared FreePath capability. -/
structure ManagedStr where
  str : HostPtr
  free_path : FreePath
deriving DecidableEq, Repr

/-- Drop for ManagedStr: performs the free_path host call with the address of
the buffer the &str borrows, i.e. the host pointer. No unwrap is involved. -/
def ManagedStr.drop (self : ManagedStr) : List HostCall :=
  self.free_path.free_path self.str.addr

/-- struct PathManager: a MakePath, an optional MapPath and a FreePath. -/
structure PathManager where
  make : MakePath
  map : Option MapPath
  free : FreePath
deriving DecidableEq, Repr

/-- PathManager::new: no MapPath capability. -/
def PathManager.new (make : MakePath) (free : FreePath) : PathManager :=
  { make := make, map := none, free := free }

/-- PathManager::new_with_map. -/
def PathManager.new_with_map (make : MakePath) (map : MapPath)
    (free : FreePath) : PathManager :=
  { make := make, map := some map, free := free }

/-- PathManager::relative_to_absolute_path: delegates to the MakePath
capability and wraps a success into a ManagedPath holding a clone of the
shared FreePath. -/
def PathManager.relative_to_absolute_path (self : PathManager) (host : Host)
    (relative_path : List Nat) :
    Except PathError ManagedPath × List HostCall :=
  let r := self.make.relative_to_absolute_path host relative_path
  (r.1.map fun path => { path := path, free_path := self.free }, r.2)

/-- PathManager::absolute_to_abstract_path: FeatureMissing when the MapPath
capability is absent, otherwise delegates and wraps into a ManagedStr. -/
def PathManager.absolute_to_abstract_path (self : PathManager) (host : Host)
    (path : List Nat) : Except PathError ManagedStr × List HostCall :=
  match self.map with
  | none => (.error .FeatureMissing, [])
  | some m =>
    let r := m.absolute_to_abstract_path host path
    (r.1.map fun s => { str := s, free_path := self.free }, r.2)

/-- PathManager::abstract_to_absolute_path: FeatureMissing when the MapPath
capability is absent, otherwise delegates and wraps into a ManagedPath. -/
def PathManager.abstract_to_absolute_path (self : PathManager) (host : Host)
    (path : List Nat) : Except PathError ManagedPath × List HostCall :=
  match self.map with
  | none => (.error .FeatureMissing, [])
  | some m =>
    let r := m.abstract_to_absolute_path host path
    (r.1.map fun path => { path := path, free_path := self.free }, r.2)

/-! ### Concrete fixtures used to evaluate the development on closed inputs -/

/-- A host whose string-returning functions always return the C string "a"
stored at address 100. -/
def host0 : Host := { call := fun _ _ _ => some { addr := 100, content := [97] } }

/-- A host whose string-returning functions always return null. -/
def hostNull : Host := { call := fun _ _ _ => none }

/-- A host whose string-returning functions return a buffer holding the
single byte 0xFF (not valid UTF-8) at address 200. -/
def hostBad : Host := { call := fun _ _ _ => some { addr := 200, content := [255] } }

/-- A concrete MakePath capability. -/
def make0 : MakePath := { handle := 10, function := 1 }

/-- A concrete MapPath capability. -/
def map0 : MapPath := { handle := 11, abstract_path := 2, absolute_path := 3 }

/-- A concrete FreePath capability. -/
def free0 : FreePath := { internal := { handle := 12, free_path := 4 } }

/-- A concrete PathManager with the MapPath capability. -/
def pm0 : PathManager := PathManager.new_with_map make0 map0 free0

/-- A concrete PathManager without the MapPath capability. -/
def pmNoMap : PathManager := PathManager.new make0 free0

/-- The ManagedPath host0 leads to. -/
def w0 : ManagedPath := { path := { addr := 100, content := [97] }, free_path := free0 }

/-- The ManagedStr host0 leads to. -/
def s0 : ManagedStr := { str := { addr := 100, content := [97] }, free_path := free0 }

/-! ### Helper lemmas -/

theorem except_map_eq_ok {ε α β : Type} (f : α → β) (e : Except ε α) (w : β) :
    e.map f = .ok w ↔ ∃ a, e = .ok a ∧ w = f a := by
  cases e with
  | error err => simp [Except.map]
  | ok a => simp [Except.map, eq_comm]

theorem make_rel_ok_iff (self : MakePath) (host : Host) (p : List Nat)
    (ptr : HostPtr) :
    (self.relative_to_absolute_path host p).1 = .ok ptr ↔
      (is_relative p = true ∧ validUTF8 p = true ∧
        host.call self.function self.handle (p ++ [0]) = some ptr ∧
        validUTF8 ptr.content = true) := by
  unfold MakePath.relative_to_absolute_path to_str
  by_cases hr : is_relative p <;> simp [hr]
  by_cases hu : validUTF8 p <;> simp [hu]
  cases hc : host.call self.function self.handle (p ++ [0]) with
  | none => simp [hc]
  | some q =>
    simp only [hc]
    by_cases hq : validUTF8 q.content <;> simp [hq] <;>
      (rintro rfl; simpa using hq)

theorem map_abs_ok_iff (self : MapPath) (host : Host) (p : List Nat)
    (ptr : HostPtr) :
    (self.absolute_to_abstract_path host p).1 = .ok ptr ↔
      (is_absolute p = true ∧ validUTF8 p = true ∧
        host.call self.abstract_path self.handle (p ++ [0]) = some ptr ∧
        validUTF8 ptr.content = true) := by
  unfold MapPath.absolute_to_abstract_path to_str
  by_cases hr : is_absolute p <;> simp [hr]
  by_cases hu : validUTF8 p <;> simp [hu]
  cases hc : host.call self.abstract_path self.handle (p ++ [0]) with
  | none => simp [hc]
  | some q =>
    simp only [hc]
    by_cases hq : validUTF8 q.content <;> simp [hq] <;>
      (rintro rfl; simpa using hq)

theorem map_abstract_ok_iff (self : MapPath) (host : Host) (p : List Nat)
    (ptr : HostPtr) :
    (self.abstract_to_absolute_path host p).1 = .ok ptr ↔
      (host.call self.absolute_path self.handle (p ++ [0]) = some ptr ∧
        validUTF8 ptr.content = true) := by
  unfold MapPath.abstract_to_absolute_path to_str
  cases hc : host.call self.absolute_path self.handle (p ++ [0]) with
  | none => simp [hc]
  | some q =>
    simp only [hc]
    by_cases hq : validUTF8 q.content <;> simp [hq] <;>
      (rintro rfl; simpa using hq)

theorem make_rel_trace (self : MakePath) (host : Host) (p : List Nat)
    (hr : is_relative p = true) (hu : validUTF8 p = true) :
    (self.relative_to_absolute_path host p).2 =
      [.invoke self.function self.handle (p ++ [0])] := by
  unfold MakePath.relative_to_absolute_path to_str
  simp only [hr, hu]
  cases hc : host.call self.function self.handle (p ++ [0]) with
  | none => simp [hc]
  | some q =>
    simp only [hc, if_true]
    by_cases hq : validUTF8 q.content <;> simp [hq]

theorem map_abs_trace (self : MapPath) (host : Host) (p : List Nat)
    (hr : is_absolute p = true) (hu : validUTF8 p = true) :
    (self.absolute_to_abstract_path host p).2 =
      [.invoke self.abstract_path self.handle (p ++ [0])] := by
  unfold MapPath.absolute_to_abstract_path to_str
  simp only [hr, hu]
  cases hc : host.call self.abstract_path self.handle (p ++ [0]) with
  | none => simp [hc]
  | some q =>
    simp only [hc, if_true]
    by_cases hq : validUTF8 q.content <;> simp [hq]

theorem map_abstract_trace (self : MapPath) (host : Host) (p : List Nat) :
    (self.abstract_to_absolute_path host p).2 =
      [.invoke self.absolute_path self.handle (p ++ [0])] := by
  unfold MapPath.abstract_to_absolute_path to_str
  cases hc : host.call self.absolute_path self.handle (p ++ [0]) with
  | none => simp [hc]
  | some q =>
    simp only [hc]
    by_cases hq : validUTF8 q.content <;> simp [hq]

theorem pm_rel_ok_iff (pm : PathManager) (host : Host) (p : List Nat)
    (w : ManagedPath) :
    (pm.relative_to_absolute_path host p).1 = .ok w ↔
      ∃ ptr, (pm.make.relative_to_absolute_path host p).1 = .ok ptr ∧
        w = { path := ptr, free_path := pm.free } := by
  show ((pm.make.relative_to_absolute_path host p).1.map _) = .ok w ↔ _
  rw [except_map_eq_ok]

theorem pm_absabs_ok_iff (pm : PathManager) (host : Host) (q : List Nat)
    (s : ManagedStr) :
    (pm.absolute_to_abstract_path host q).1 = .ok s ↔
      ∃ m, pm.map = some m ∧
        ∃ ptr, (m.absolute_to_abstract_path host q).1 = .ok ptr ∧
          s = { str := ptr, free_path := pm.free } := by
  cases hm : pm.map with
  | none => simp [PathManager.absolute_to_abstract_path, hm]
  | some m =>
    simp only [PathManager.absolute_to_abstract_path, hm, Option.some.injEq]
    rw [except_map_eq_ok]
    constructor
    · rintro ⟨a, ha, rfl⟩; exact ⟨m, rfl, a, ha, rfl⟩
    · rintro ⟨m1, hm1, a, ha, rfl⟩
      cases hm1; exact ⟨a, ha, rfl⟩

theorem pm_absrel_ok_iff (pm : PathManager) (host : Host) (r : List Nat)
    (v : ManagedPath) :
    (pm.abstract_to_absolute_path host r).1 = .ok v ↔
      ∃ m, pm.map = some m ∧
        ∃ ptr, (m.abstract_to_absolute_path host r).1 = .ok ptr ∧
          v = { path := ptr, free_path := pm.free } := by
  cases hm : pm.map with
  | none => simp [PathManager.abstract_to_absolute_path, hm]
  | some m =>
    simp only [PathManager.abstract_to_absolute_path, hm, Option.some.injEq]
    rw [except_map_eq_ok]
    constructor
    · rintro ⟨a, ha, rfl⟩; exact ⟨m, rfl, a, ha, rfl⟩
    · rintro ⟨m1, hm1, a, ha, rfl⟩
      cases hm1; exact ⟨a, ha, rfl⟩

theorem managedPath_drop_of_valid (w : ManagedPath)
    (h : validUTF8 w.path.content = true) :
    w.drop = some [.free w.free_path.internal.free_path
      w.free_path.internal.handle w.path.addr] := by
  unfold ManagedPath.drop to_str FreePath.free_path
  simp [h]

/-! ### Claim theorems -/

/-- C1: every ManagedPath or ManagedStr produced by the PathManager wraps
exactly the pointer the host returned, and its drop handler performs exactly
one free_path host call, whose pointer argument is that exact host-returned
pointer value. -/
theorem c1_wrapper_drop_releases_host_pointer_exactly_once
    (pm : PathManager) (host : Host) (p q r : List Nat)
    (w : ManagedPath) (s : ManagedStr) (v : ManagedPath)
    (hw : (pm.relative_to_absolute_path host p).1 = .ok w)
    (hs : (pm.absolute_to_abstract_path host q).1 = .ok s)
    (hv : (pm.abstract_to_absolute_path host r).1 = .ok v) :
    (host.call pm.make.function pm.make.handle (p ++ [0]) = some w.path ∧
      w.drop = some [.free pm.free.internal.free_path
        pm.free.internal.handle w.path.addr]) ∧
    (∃ m, pm.map = some m ∧
      host.call m.abstract_path m.handle (q ++ [0]) = some s.str ∧
      s.drop = [.free pm.free.internal.free_path
        pm.free.internal.handle s.str.addr]) ∧
    (∃ m, pm.map = some m ∧
      host.call m.absolute_path m.handle (r ++ [0]) = some v.path ∧
      v.drop = some [.free pm.free.internal.free_path
        pm.free.internal.handle v.path.addr]) := by
  obtain ⟨ptr, hmk, rfl⟩ := (pm_rel_ok_iff pm host p w).mp hw
  obtain ⟨_, _, hcall, hvalid⟩ := (make_rel_ok_iff _ _ _ _).mp hmk
  obtain ⟨m, hm, ptr2, hmap, rfl⟩ := (pm_absabs_ok_iff pm host q s).mp hs
  obtain ⟨_, _, hcall2, _⟩ := (map_abs_ok_iff _ _ _ _).mp hmap
  obtain ⟨m1, hm1, ptr3, hmap1, rfl⟩ := (pm_absrel_ok_iff pm host r v).mp hv
  obtain ⟨hcall3, hvalid3⟩ := (map_abstract_ok_iff _ _ _ _).mp hmap1
  refine ⟨⟨hcall, managedPath_drop_of_valid _ hvalid⟩,
    ⟨m, hm, hcall2, rfl⟩,
    ⟨m1, hm1, hcall3, managedPath_drop_of_valid _ hvalid3⟩⟩

theorem c1_witness :
    (pm0.relative_to_absolute_path host0 [97]).1 = .ok w0 ∧
    (pm0.absolute_to_abstract_path host0 [47]).1 = .ok s0 ∧
    (pm0.abstract_to_absolute_path host0 []).1 = .ok w0 ∧
    ((host0.call pm0.make.function pm0.make.handle ([97] ++ [0]) =
        some w0.path ∧
      w0.drop = some [.free pm0.free.internal.free_path
        pm0.free.internal.handle w0.path.addr]) ∧
    (∃ m, pm0.map = some m ∧
      host0.call m.abstract_path m.handle ([47] ++ [0]) = some s0.str ∧
      s0.drop = [.free pm0.free.internal.free_path
        pm0.free.internal.handle s0.str.addr]) ∧
    (∃ m, pm0.map = some m ∧
      host0.call m.absolute_path m.handle ([] ++ [0]) = some w0.path ∧
      w0.drop = some [.free pm0.free.internal.free_path
        pm0.free.internal.handle w0.path.addr])) :=
  ⟨rfl, rfl, rfl,
    c1_wrapper_drop_releases_host_pointer_exactly_once pm0 host0 [97] [47] []
      w0 s0 w0 rfl rfl rfl⟩

/-- C2: a non-relative input to relative_to_absolute_path fails with
PathNotRelative, a relative non-UTF-8 input with PathNotUTF8; a non-absolute
input to absolute_to_abstract_path fails with PathNotAbsolute, an absolute
non-UTF-8 input with PathNotUTF8, and in every such case the host-call trace
is empty (the error is returned before any host function pointer is
invoked). -/
theorem c2_precondition_errors_before_any_host_call
    (mk : MakePath) (mp : MapPath) (host : Host) (p1 p2 p3 p4 : List Nat)
    (h1 : is_relative p1 = false)
    (h2r : is_relative p2 = true) (h2u : validUTF8 p2 = false)
    (h3 : is_absolute p3 = false)
    (h4a : is_absolute p4 = true) (h4u : validUTF8 p4 = false) :
    mk.relative_to_absolute_path host p1 = (.error .PathNotRelative, []) ∧
    mk.relative_to_absolute_path host p2 = (.error .PathNotUTF8, []) ∧
    mp.absolute_to_abstract_path host p3 = (.error .PathNotAbsolute, []) ∧
    mp.absolute_to_abstract_path host p4 = (.error .PathNotUTF8, []) := by
  refine ⟨?_, ?_, ?_, ?_⟩
  · simp [MakePath.relative_to_absolute_path, h1]
  · simp [MakePath.relative_to_absolute_path, h2r, to_str, h2u]
  · simp [MapPath.absolute_to_abstract_path, h3]
  · simp [MapPath.absolute_to_abstract_path, h4a, to_str, h4u]

theorem c2_witness :
    is_relative [47] = false ∧
    (is_relative [255] = true ∧ validUTF8 [255] = false) ∧
    is_absolute [97] = false ∧
    (is_absolute [47, 255] = true ∧ validUTF8 [47, 255] = false) ∧
    (make0.relative_to_absolute_path host0 [47] =
      (.error .PathNotRelative, []) ∧
    make0.relative_to_absolute_path host0 [255] = (.error .PathNotUTF8, []) ∧
    map0.absolute_to_abstract_path host0 [97] =
      (.error .PathNotAbsolute, []) ∧
    map0.absolute_to_abstract_path host0 [47, 255] =
      (.error .PathNotUTF8, [])) :=
  ⟨rfl, ⟨rfl, rfl⟩, rfl, ⟨rfl, rfl⟩,
    c2_precondition_errors_before_any_host_call make0 map0 host0
      [47] [255] [97] [47, 255] rfl rfl rfl rfl rfl rfl⟩

/-- C3: on a PathManager built by PathManager::new (no MapPath capability),
absolute_to_abstract_path and abstract_to_absolute_path both return
FeatureMissing with an empty host-call trace. -/
theorem c3_feature_missing_without_map_capability
    (make : MakePath) (free : FreePath) (host : Host) (p q : List Nat) :
    (PathManager.new make free).absolute_to_abstract_path host p =
      (.error .FeatureMissing, []) ∧
    (PathManager.new make free).abstract_to_absolute_path host q =
      (.error .FeatureMissing, []) :=
  ⟨rfl, rfl⟩

/-- C4: when the host's make_path function returns null on a relative,
valid-UTF-8 input, PathManager::relative_to_absolute_path returns HostError,
no ManagedPath is constructed (the result is an error), and the trace holds
the single make_path invocation and no free_path call. -/
theorem c4_null_host_result_is_host_error_without_release
    (pm : PathManager) (host : Host) (p : List Nat)
    (hr : is_relative p = true) (hu : validUTF8 p = true)
    (hn : host.call pm.make.function pm.make.handle (p ++ [0]) = none) :
    pm.relative_to_absolute_path host p = (.error .HostError,
      [.invoke pm.make.function pm.make.handle (p ++ [0])]) ∧
    ∀ fp h a, HostCall.free fp h a ∉ (pm.relative_to_absolute_path host p).2 := by
  have hmk : pm.make.relative_to_absolute_path host p = (.error .HostError,
      [.invoke pm.make.function pm.make.handle (p ++ [0])]) := by
    unfold MakePath.relative_to_absolute_path to_str
    simp [hr, hu, hn]
  constructor
  · show ((pm.make.relative_to_absolute_path host p).1.map _,
      (pm.make.relative_to_absolute_path host p).2) = _
    rw [hmk]
    rfl
  · intro fp h a
    show HostCall.free fp h a ∉ (pm.make.relative_to_absolute_path host p).2
    rw [hmk]
    simp

theorem c4_witness :
    is_relative [97] = true ∧ validUTF8 [97] = true ∧
    hostNull.call pm0.make.function pm0.make.handle ([97] ++ [0]) = none ∧
    (pm0.relative_to_absolute_path hostNull [97] = (.error .HostError,
      [.invoke pm0.make.function pm0.make.handle ([97] ++ [0])]) ∧
    ∀ fp h a, HostCall.free fp h a ∉
      (pm0.relative_to_absolute_path hostNull [97]).2) :=
  ⟨rfl, rfl, rfl,
    c4_null_host_result_is_host_error_without_release pm0 hostNull [97]
      rfl rfl rfl⟩

/-- C5: whenever the host returns a non-null buffer whose content is not
valid UTF-8, each of the three operations fails with HostError (in
particular never with PathNotUTF8, which these results are not equal to). -/
theorem c5_invalid_host_utf8_is_host_error
    (mk : MakePath) (mp : MapPath) (host : Host) (p q r : List Nat)
    (ptr1 ptr2 ptr3 : HostPtr)
    (hp : is_relative p = true) (hpu : validUTF8 p = true)
    (h1 : host.call mk.function mk.handle (p ++ [0]) = some ptr1)
    (h1b : validUTF8 ptr1.content = false)
    (hq : is_absolute q = true) (hqu : validUTF8 q = true)
    (h2 : host.call mp.abstract_path mp.handle (q ++ [0]) = some ptr2)
    (h2b : validUTF8 ptr2.content = false)
    (h3 : host.call mp.absolute_path mp.handle (r ++ [0]) = some ptr3)
    (h3b : validUTF8 ptr3.content = false) :
    (mk.relative_to_absolute_path host p).1 = .error .HostError ∧
    (mp.absolute_to_abstract_path host q).1 = .error .HostError ∧
    (mp.abstract_to_absolute_path host r).1 = .error .HostError := by
  refine ⟨?_, ?_, ?_⟩
  · unfold MakePath.relative_to_absolute_path to_str
    simp [hp, hpu, h1, h1b]
  · unfold MapPath.absolute_to_abstract_path to_str
    simp [hq, hqu, h2, h2b]
  · unfold MapPath.abstract_to_absolute_path to_str
    simp [h3, h3b]

theorem c5_witness :
    is_relative [97] = true ∧ validUTF8 [97] = true ∧
    hostBad.call make0.function make0.handle ([97] ++ [0]) =
      some { addr := 200, content := [255] } ∧
    validUTF8 [255] = false ∧
    is_absolute [47] = true ∧ validUTF8 [47] = true ∧
    ((make0.relative_to_absolute_path hostBad [97]).1 = .error .HostError ∧
    (map0.absolute_to_abstract_path hostBad [47]).1 = .error .HostError ∧
    (map0.abstract_to_absolute_path hostBad []).1 = .error .HostError) :=
  ⟨rfl, rfl, rfl, rfl, rfl, rfl,
    c5_invalid_host_utf8_is_host_error make0 map0 hostBad [97] [47] []
      { addr := 200, content := [255] } { addr := 200, content := [255] }
      { addr := 200, content := [255] }
      rfl rfl rfl rfl rfl rfl rfl rfl rfl rfl⟩

/-- C6: on a relative valid-UTF-8 input, relative_to_absolute_path invokes
the host exactly once with exactly the input bytes followed by one null
terminator; likewise absolute_to_abstract_path on an absolute valid-UTF-8
input. -/
theorem c6_exact_bytes_forwarded_with_null_terminator
    (mk : MakePath) (mp : MapPath) (host : Host) (p q : List Nat)
    (hp : is_relative p = true) (hpu : validUTF8 p = true)
    (hq : is_absolute q = true) (hqu : validUTF8 q = true) :
    (mk.relative_to_absolute_path host p).2 =
      [.invoke mk.function mk.handle (p ++ [0])] ∧
    (mp.absolute_to_abstract_path host q).2 =
      [.invoke mp.abstract_path mp.handle (q ++ [0])] :=
  ⟨make_rel_trace mk host p hp hpu, map_abs_trace mp host q hq hqu⟩

theorem c6_witness :
    is_relative [97] = true ∧ validUTF8 [97] = true ∧
    is_absolute [47] = true ∧ validUTF8 [47] = true ∧
    ((make0.relative_to_absolute_path host0 [97]).2 =
      [.invoke make0.function make0.handle ([97] ++ [0])] ∧
    (map0.absolute_to_abstract_path host0 [47]).2 =
      [.invoke map0.abstract_path map0.handle ([47] ++ [0])]) :=
  ⟨rfl, rfl, rfl, rfl,
    c6_exact_bytes_forwarded_with_null_terminator make0 map0 host0 [97] [47]
      rfl rfl rfl rfl⟩

/-- C7: each from_feature_ptr constructor succeeds exactly when the feature
pointer is non-null and every function pointer the capability requires is
non-null, and the constructed capability holds exactly those validated
pointers and the feature's handle. -/
theorem c7_from_feature_ptr_validates_all_pointers
    (f1 : Option LV2_State_Make_Path) (f2 : Option LV2_State_Map_Path)
    (f3 : Option LV2_State_Free_Path)
    (m1 : MakePath) (m2 : MapPath) (m3 : FreePath) :
    (MakePath.from_feature_ptr f1 = some m1 ↔
      ∃ i, f1 = some i ∧ i.path = some m1.function ∧
        m1.handle = i.handle) ∧
    (MapPath.from_feature_ptr f2 = some m2 ↔
      ∃ i, f2 = some i ∧ i.abstract_path = some m2.abstract_path ∧
        i.absolute_path = some m2.absolute_path ∧ m2.handle = i.handle) ∧
    (FreePath.from_feature_ptr f3 = some m3 ↔
      ∃ i, f3 = some i ∧ i.free_path = some m3.internal.free_path ∧
        m3.internal.handle = i.handle) := by
  refine ⟨?_, ?_, ?_⟩
  · cases f1 with
    | none => simp [MakePath.from_feature_ptr]
    | some i =>
      cases m1 with
      | mk h f =>
        cases hp : i.path <;>
          simp [MakePath.from_feature_ptr, hp, and_comm, eq_comm]
  · cases f2 with
    | none => simp [MapPath.from_feature_ptr]
    | some i =>
      cases m2 with
      | mk h fab fabs =>
        cases hp : i.abstract_path <;>
          cases hq : i.absolute_path <;>
            simp [MapPath.from_feature_ptr, hp, hq, and_comm, eq_comm]
        constructor
        · rintro ⟨rfl, rfl, rfl⟩; exact ⟨rfl, rfl, rfl⟩
        · rintro ⟨rfl, rfl, rfl⟩; exact ⟨rfl, rfl, rfl⟩
  · cases f3 with
    | none => simp [FreePath.from_feature_ptr]
    | some i =>
      cases m3 with
      | mk inn =>
        cases inn with
        | mk h f =>
          cases hp : i.free_path <;>
            simp [FreePath.from_feature_ptr, hp, and_comm, eq_comm]

/-- C8: abstract_to_absolute_path imposes no path-shape precondition: with
the MapPath capability present the host's absolute_path function is invoked
with the input bytes plus a null terminator for every input, and the result
is either a success or HostError; with the capability absent the result is
FeatureMissing with no host call. -/
theorem c8_abstract_to_absolute_no_shape_precondition
    (pm1 pm2 : PathManager) (m : MapPath) (host : Host) (s : List Nat)
    (hm : pm1.map = some m) (hn : pm2.map = none) :
    (pm1.abstract_to_absolute_path host s).2 =
      [.invoke m.absolute_path m.handle (s ++ [0])] ∧
    ((∃ w, (pm1.abstract_to_absolute_path host s).1 = .ok w) ∨
      (pm1.abstract_to_absolute_path host s).1 = .error .HostError) ∧
    pm2.abstract_to_absolute_path host s = (.error .FeatureMissing, []) := by
  refine ⟨?_, ?_, ?_⟩
  · show (pm1.abstract_to_absolute_path host s).2 = _
    simp only [PathManager.abstract_to_absolute_path, hm]
    exact map_abstract_trace m host s
  · cases hc : host.call m.absolute_path m.handle (s ++ [0]) with
    | none =>
      right
      simp only [PathManager.abstract_to_absolute_path, hm]
      unfold MapPath.abstract_to_absolute_path
      simp [hc, Except.map]
    | some ptr =>
      by_cases hq : validUTF8 ptr.content
      · left
        refine ⟨{ path := ptr, free_path := pm1.free }, ?_⟩
        rw [pm_absrel_ok_iff]
        exact ⟨m, hm, ptr, (map_abstract_ok_iff m host s ptr).mpr ⟨hc, hq⟩,
          rfl⟩
      · right
        simp only [PathManager.abstract_to_absolute_path, hm]
        unfold MapPath.abstract_to_absolute_path to_str
        simp [hc, hq, Except.map]
  · simp [PathManager.abstract_to_absolute_path, hn]

theorem c8_witness :
    pm0.map = some map0 ∧ pmNoMap.map = none ∧
    ((pm0.abstract_to_absolute_path host0 [255]).2 =
      [.invoke map0.absolute_path map0.handle ([255] ++ [0])] ∧
    ((∃ w, (pm0.abstract_to_absolute_path host0 [255]).1 = .ok w) ∨
      (pm0.abstract_to_absolute_path host0 [255]).1 = .error .HostError) ∧
    pmNoMap.abstract_to_absolute_path host0 [255] =
      (.error .FeatureMissing, [])) :=
  ⟨rfl, rfl,
    c8_abstract_to_absolute_no_shape_precondition pm0 pmNoMap map0 host0
      [255] rfl rfl⟩

/-- C9: when both preconditions fail at once the shape check wins: a
non-relative non-UTF-8 input yields PathNotRelative from
relative_to_absolute_path, and a non-absolute non-UTF-8 input yields
PathNotAbsolute from absolute_to_abstract_path. -/
theorem c9_shape_check_precedes_utf8_check
    (mk : MakePath) (mp : MapPath) (host : Host) (p q : List Nat)
    (hp1 : is_relative p = false) (hp2 : validUTF8 p = false)
    (hq1 : is_absolute q = false) (hq2 : validUTF8 q = false) :
    (mk.relative_to_absolute_path host p).1 = .error .PathNotRelative ∧
    (mp.absolute_to_abstract_path host q).1 = .error .PathNotAbsolute := by
  constructor
  · unfold MakePath.relative_to_absolute_path
    simp [hp1]
  · unfold MapPath.absolute_to_abstract_path
    simp [hq1]

theorem c9_witness :
    is_relative [47, 255] = false ∧ validUTF8 [47, 255] = false ∧
    is_absolute [255] = false ∧ validUTF8 [255] = false ∧
    ((make0.relative_to_absolute_path host0 [47, 255]).1 =
      .error .PathNotRelative ∧
    (map0.absolute_to_abstract_path host0 [255]).1 =
      .error .PathNotAbsolute) :=
  ⟨rfl, rfl, rfl, rfl,
    c9_shape_check_precedes_utf8_check make0 map0 host0 [47, 255] [255]
      rfl rfl rfl rfl⟩

/-- C10: the unwrap in ManagedPath's drop handler never panics: every
ManagedPath the module constructs wraps content that decoded successfully as
UTF-8, so drop's re-validation (`drop` being `some`) always succeeds. -/
theorem c10_drop_unwrap_never_panics
    (pm : PathManager) (host : Host) (p r : List Nat) (w v : ManagedPath)
    (hw : (pm.relative_to_absolute_path host p).1 = .ok w)
    (hv : (pm.abstract_to_absolute_path host r).1 = .ok v) :
    w.drop.isSome = true ∧ v.drop.isSome = true := by
  obtain ⟨ptr, hmk, rfl⟩ := (pm_rel_ok_iff pm host p w).mp hw
  obtain ⟨_, _, _, hvalid⟩ := (make_rel_ok_iff _ _ _ _).mp hmk
  obtain ⟨m, hm, ptr3, hmap, rfl⟩ := (pm_absrel_ok_iff pm host r v).mp hv
  obtain ⟨_, hvalid3⟩ := (map_abstract_ok_iff _ _ _ _).mp hmap
  constructor
  · rw [managedPath_drop_of_valid _ hvalid]; rfl
  · rw [managedPath_drop_of_valid _ hvalid3]; rfl

theorem c10_witness :
    (pm0.relative_to_absolute_path host0 [97]).1 = .ok w0 ∧
    (pm0.abstract_to_absolute_path host0 []).1 = .ok w0 ∧
    (w0.drop.isSome = true ∧ w0.drop.isSome = true) :=
  ⟨rfl, rfl,
    c10_drop_unwrap_never_panics pm0 host0 [97] [] w0 w0 rfl rfl⟩

end Lv2State
